import Mathlib

/-!
Shallow embedding of `src/apps/sim/stores/sync-registry.ts`.

The module is a client-side bootstrap over three module-level variables
(`initialized`, `initializing`, `managers`) with four operations:
`initializeSyncManagers`, `isSyncInitialized`, `getSyncManagers`,
`resetSyncManagers`.  The external collaborators (`isLocalStorageMode`,
`resetRegistryInitialization`, `fetchWorkflowsFromDB`,
`isRegistryInitialized`) are modelled by an environment record giving the
result of each call; a call that throws is an `Except.error` carrying an
opaque error code.  Each operation is embedded as a pure function from the
environment and the current state to a result record that carries the
return value, the new state, which collaborators were invoked, the total
waiting time in the source's time units, and the emitted log lines.
-/

deriving instance DecidableEq for Except

namespace SyncRegistry

/-- Opaque sync-manager handles; the module only ever stores the single
`workflowSync` handle imported from `./workflows/sync`. -/
inductive SyncManager where
  | workflowSync
deriving DecidableEq, Repr

/-- The module-level mutable state: `initialized`, `initializing`, `managers`. -/
structure BootstrapState where
  initialized : Bool
  initializing : Bool
  managers : List SyncManager
deriving DecidableEq, Repr

/-- Module-load state: `initialized = false`, `initializing = false`, `managers = []`. -/
def initialState : BootstrapState :=
  { initialized := false, initializing := false, managers := [] }

/-- Log levels of the `createLogger` collaborator used by the module. -/
inductive LogLevel where
  | info
  | warn
  | error
deriving DecidableEq, Repr

/-- One emitted log line (level and message text). -/
structure LogLine where
  level : LogLevel
  msg : String
deriving DecidableEq, Repr

/-- Results of the external collaborator calls made during one
`initializeSyncManagers` run: the value of `isLocalStorageMode()`, of
`resetRegistryInitialization()`, of `fetchWorkflowsFromDB()`, and of the
first and second `isRegistryInitialized()` calls on the non-local path.
`Except.error e` models the call throwing with error code `e`. -/
structure Env where
  localStorageMode : Except Nat Bool
  resetRegistry : Except Nat Unit
  fetchWorkflows : Except Nat Unit
  registryCheck1 : Except Nat Bool
  registryCheck2 : Except Nat Bool
deriving DecidableEq, Repr

/-- Outcome of the inner `try { await fetchWorkflowsFromDB() ... }` block:
time waited (the `setTimeout(resolve, 500)` delay) and log lines.  Any
error thrown inside this block is caught by the inner `catch`, which logs
it; no error propagates out of the block. -/
structure InnerResult where
  waitUnits : Nat
  logs : List LogLine
deriving DecidableEq, Repr

/-- The inner fetch-and-verify block of `initializeSyncManagers`:
`await fetchWorkflowsFromDB()`; if `!isRegistryInitialized()` log and wait
500 units; then re-check `isRegistryInitialized()` and log verified/warn.
A throw from the fetch or from either predicate call lands in the inner
`catch (error) { logger.error(...) }`. -/
def innerFetchBlock (env : Env) : InnerResult :=
  match env.fetchWorkflows with
  | .error _ => { waitUnits := 0, logs := [⟨.error, "Error fetching data from DB:"⟩] }
  | .ok _ =>
    match env.registryCheck1 with
    | .error _ => { waitUnits := 0, logs := [⟨.error, "Error fetching data from DB:"⟩] }
    | .ok r1 =>
      let wl : Nat × List LogLine :=
        if r1 then (0, [])
        else (500, [⟨.info, "Waiting for registry initialization to complete..."⟩])
      match env.registryCheck2 with
      | .error _ => { waitUnits := wl.1, logs := wl.2 ++ [⟨.error, "Error fetching data from DB:"⟩] }
      | .ok r2 =>
        { waitUnits := wl.1,
          logs := wl.2 ++
            [if r2 then ⟨.info, "Registry initialization verified"⟩
             else ⟨.warn, "Registry initialization may not have completed properly"⟩] }

/-- Result record of the body of `initializeSyncManagers` between the guard
and the outer `catch`/`finally`: the outcome (`.ok ret`, or `.error e` when
an exception escapes to the outer `catch`), the state as mutated so far,
which collaborators were invoked, waiting time, and log lines. -/
structure BodyResult where
  outcome : Except Nat Bool
  state : BootstrapState
  localModeInvoked : Bool
  resetRegistryInvoked : Bool
  fetchInvoked : Bool
  waitUnits : Nat
  logs : List LogLine
deriving DecidableEq, Repr

/-- The outer `try` body of `initializeSyncManagers`, entered after the
guard with `initializing` already set: branch on `isLocalStorageMode()`;
on the local path set `managers` and `initialized` and return `true`;
otherwise set `managers`, call `resetRegistryInitialization()`, run the
inner fetch block, set `initialized` and return `true`.  Mutations made
before a throw persist (the globals are not rolled back). -/
def initBody (env : Env) (s : BootstrapState) : BodyResult :=
  match env.localStorageMode with
  | .error e =>
      { outcome := .error e, state := s, localModeInvoked := true,
        resetRegistryInvoked := false, fetchInvoked := false, waitUnits := 0, logs := [] }
  | .ok true =>
      { outcome := .ok true,
        state := { s with managers := [SyncManager.workflowSync], initialized := true },
        localModeInvoked := true, resetRegistryInvoked := false, fetchInvoked := false,
        waitUnits := 0, logs := [] }
  | .ok false =>
      let s1 := { s with managers := [SyncManager.workflowSync] }
      match env.resetRegistry with
      | .error e =>
          { outcome := .error e, state := s1, localModeInvoked := true,
            resetRegistryInvoked := true, fetchInvoked := false, waitUnits := 0, logs := [] }
      | .ok _ =>
          let inner := innerFetchBlock env
          { outcome := .ok true,
            state := { s1 with initialized := true },
            localModeInvoked := true, resetRegistryInvoked := true, fetchInvoked := true,
            waitUnits := inner.waitUnits, logs := inner.logs }

/-- Result record of one `initializeSyncManagers` call: returned boolean,
final state, which collaborators were invoked, waiting time, log lines.
The function always returns a boolean (the outer `catch` converts any
escaping exception into `false`), so there is no error channel here. -/
structure InitResult where
  ret : Bool
  state : BootstrapState
  localModeInvoked : Bool
  resetRegistryInvoked : Bool
  fetchInvoked : Bool
  waitUnits : Nat
  logs : List LogLine
deriving DecidableEq, Repr

/-- `initializeSyncManagers()`: if `initialized || initializing`, return the
current `initialized` immediately; otherwise set `initializing`, run the
body, and in the outer `catch` log and return `false` on an escaping
exception; the `finally` clears `initializing` on every path. -/
def initializeSyncManagers (env : Env) (s : BootstrapState) : InitResult :=
  if s.initialized || s.initializing then
    { ret := s.initialized, state := s, localModeInvoked := false,
      resetRegistryInvoked := false, fetchInvoked := false, waitUnits := 0, logs := [] }
  else
    let b := initBody env { s with initializing := true }
    match b.outcome with
    | .ok v =>
        { ret := v, state := { b.state with initializing := false },
          localModeInvoked := b.localModeInvoked,
          resetRegistryInvoked := b.resetRegistryInvoked,
          fetchInvoked := b.fetchInvoked, waitUnits := b.waitUnits, logs := b.logs }
    | .error _ =>
        { ret := false, state := { b.state with initializing := false },
          localModeInvoked := b.localModeInvoked,
          resetRegistryInvoked := b.resetRegistryInvoked,
          fetchInvoked := b.fetchInvoked, waitUnits := b.waitUnits,
          logs := b.logs ++ [⟨LogLevel.error, "Error initializing sync managers:"⟩] }

/-- Value of `isSyncInitialized()`: `initialized && isRegistryInitialized()`,
with the registry predicate's current value passed in. -/
def isSyncInitialized (s : BootstrapState) (registryInitialized : Bool) : Bool :=
  s.initialized && registryInitialized

/-- `isSyncInitialized()` as a state transformer over the module state it
reads: it returns its value and the (unchanged) state, recording that the
query writes nothing. -/
def isSyncInitializedRun (s : BootstrapState) (registryInitialized : Bool) :
    Bool × BootstrapState :=
  (s.initialized && registryInitialized, s)

/-- `getSyncManagers()`: returns the current `managers` list. -/
def getSyncManagers (s : BootstrapState) : List SyncManager :=
  s.managers

/-- Result record of one `resetSyncManagers` call: the new state, the fact
that `resetRegistryInitialization()` was invoked, and that call's outcome
(the source has no try/catch here, so a throw would propagate after the
three assignments have already been made). -/
structure ResetResult where
  state : BootstrapState
  resetRegistryInvoked : Bool
  outcome : Except Nat Unit
deriving DecidableEq, Repr

/-- `resetSyncManagers()`: set `initialized = false`, `initializing = false`,
`managers = []`, then call `resetRegistryInitialization()`. -/
def resetSyncManagers (env : Env) (_s : BootstrapState) : ResetResult :=
  { state := { initialized := false, initializing := false, managers := [] },
    resetRegistryInvoked := true,
    outcome := env.resetRegistry }

/-- States reachable from the module-load state by completed
`initializeSyncManagers` and `resetSyncManagers` calls (each under some
collaborator environment). -/
inductive Reach : BootstrapState → Prop where
  | start : Reach initialState
  | stepInit (env : Env) {s : BootstrapState} :
      Reach s → Reach (initializeSyncManagers env s).state
  | stepReset (env : Env) {s : BootstrapState} :
      Reach s → Reach (resetSyncManagers env s).state

/-- A fixed all-succeeding environment, used to instantiate witnesses. -/
def envOk : Env :=
  { localStorageMode := .ok true, resetRegistry := .ok (),
    fetchWorkflows := .ok (), registryCheck1 := .ok true, registryCheck2 := .ok true }

/-- A state with `initialized = true`, as left behind by a completed call. -/
def sInitialized : BootstrapState :=
  { initialized := true, initializing := false, managers := [SyncManager.workflowSync] }

/-- Clearing the guard: a call whose guard passes ends with
`initializing = false` whatever the environment does. -/
theorem initializing_cleared (env : Env) (s : BootstrapState)
    (h : s.initializing = false) :
    (initializeSyncManagers env s).state.initializing = false := by
  cases hi : s.initialized with
  | true => simpa [initializeSyncManagers, hi] using h
  | false =>
    simp only [initializeSyncManagers, hi, h, Bool.or_self, Bool.false_eq_true,
      if_false]
    split <;> rfl

/-- Every reachable state is quiescent: `initializing` is false between calls. -/
theorem reach_initializing_false {s : BootstrapState} (h : Reach s) :
    s.initializing = false := by
  induction h with
  | start => rfl
  | stepInit env h ih => exact initializing_cleared env _ ih
  | stepReset env h => rfl

/-- Claim C1: when `initialized` or `initializing` is already true,
`initializeSyncManagers` returns the current `initialized` value with no
side effects: the state is unchanged, no collaborator
(`isLocalStorageMode`, `resetRegistryInitialization`,
`fetchWorkflowsFromDB`) is invoked, nothing is waited for and nothing is
logged.  In particular a call arriving while another is in flight
(`initializing = true`, `initialized = false`) returns `false`, and a call
arriving with `initialized = true` returns `true`. -/
theorem guard_no_side_effects (env : Env) (s : BootstrapState)
    (h : s.initialized = true ∨ s.initializing = true) :
    initializeSyncManagers env s =
      { ret := s.initialized, state := s, localModeInvoked := false,
        resetRegistryInvoked := false, fetchInvoked := false,
        waitUnits := 0, logs := [] } ∧
    (s.initializing = true → s.initialized = false →
      (initializeSyncManagers env s).ret = false) ∧
    (s.initialized = true → (initializeSyncManagers env s).ret = true) := by
  have hg : (s.initialized || s.initializing) = true := by
    rcases h with h | h <;> simp [h]
  refine ⟨by simp [initializeSyncManagers, hg], ?_, ?_⟩
  · intro h1 h2
    simp [initializeSyncManagers, h1, h2]
  · intro h1
    simp [initializeSyncManagers, hg, h1]

/-- Witness for claim C1 at `initialized = true` and at an in-flight state. -/
theorem guard_no_side_effects_witness :
    (sInitialized.initialized = true ∨ sInitialized.initializing = true) ∧
    (initializeSyncManagers envOk sInitialized =
      { ret := true, state := sInitialized, localModeInvoked := false,
        resetRegistryInvoked := false, fetchInvoked := false,
        waitUnits := 0, logs := [] } ∧
     (sInitialized.initializing = true → sInitialized.initialized = false →
       (initializeSyncManagers envOk sInitialized).ret = false) ∧
     (sInitialized.initialized = true →
       (initializeSyncManagers envOk sInitialized).ret = true)) :=
  ⟨Or.inl rfl, guard_no_side_effects envOk sInitialized (Or.inl rfl)⟩

/-- Claim C5: on the local-storage path a guard-passing call sets
`managers` to the singleton `[workflowSync]`, sets `initialized`, returns
`true`, invokes neither `fetchWorkflowsFromDB` nor
`resetRegistryInitialization`, and afterwards `getSyncManagers` returns
exactly that one handle. -/
theorem localMode_singleton (env : Env) (s : BootstrapState)
    (h1 : s.initialized = false) (h2 : s.initializing = false)
    (h3 : env.localStorageMode = .ok true) :
    initializeSyncManagers env s =
      { ret := true,
        state := { initialized := true, initializing := false,
                   managers := [SyncManager.workflowSync] },
        localModeInvoked := true, resetRegistryInvoked := false,
        fetchInvoked := false, waitUnits := 0, logs := [] } ∧
    getSyncManagers (initializeSyncManagers env s).state =
      [SyncManager.workflowSync] := by
  have hmain : initializeSyncManagers env s =
      { ret := true,
        state := { initialized := true, initializing := false,
                   managers := [SyncManager.workflowSync] },
        localModeInvoked := true, resetRegistryInvoked := false,
        fetchInvoked := false, waitUnits := 0, logs := [] } := by
    simp [initializeSyncManagers, initBody, h1, h2, h3]
  exact ⟨hmain, by rw [hmain]; rfl⟩

/-- Witness for claim C5 at the module-load state and an all-ok local-mode
environment. -/
theorem localMode_singleton_witness :
    (initialState.initialized = false ∧ initialState.initializing = false ∧
      envOk.localStorageMode = .ok true) ∧
    (initializeSyncManagers envOk initialState =
      { ret := true,
        state := { initialized := true, initializing := false,
                   managers := [SyncManager.workflowSync] },
        localModeInvoked := true, resetRegistryInvoked := false,
        fetchInvoked := false, waitUnits := 0, logs := [] } ∧
     getSyncManagers (initializeSyncManagers envOk initialState).state =
       [SyncManager.workflowSync]) :=
  ⟨⟨rfl, rfl, rfl⟩, localMode_singleton envOk initialState rfl rfl rfl⟩

/-- Claim C6: `isSyncInitialized()` returns exactly
`initialized && isRegistryInitialized()` and is a pure query: run as a
state transformer it returns the state unchanged, so `initialized`,
`initializing` and `managers` are untouched. -/
theorem isSyncInitialized_pure_conj (s : BootstrapState) (r : Bool) :
    (isSyncInitializedRun s r).1 = (s.initialized && r) ∧
    (isSyncInitializedRun s r).2 = s ∧
    isSyncInitialized s r = (s.initialized && r) ∧
    (isSyncInitializedRun s r).2.initialized = s.initialized ∧
    (isSyncInitializedRun s r).2.initializing = s.initializing ∧
    (isSyncInitializedRun s r).2.managers = s.managers :=
  ⟨rfl, rfl, rfl, rfl, rfl, rfl⟩

/-- Claim C7: from every state, `resetSyncManagers` clears the two flags,
empties `managers`, and invokes `resetRegistryInitialization`; right after
it `getSyncManagers` is empty and `isSyncInitialized` is false whatever
the registry predicate reports. -/
theorem resetSyncManagers_clears (env : Env) (s : BootstrapState) (r : Bool) :
    (resetSyncManagers env s).state.initialized = false ∧
    (resetSyncManagers env s).state.initializing = false ∧
    (resetSyncManagers env s).state.managers = [] ∧
    (resetSyncManagers env s).resetRegistryInvoked = true ∧
    getSyncManagers (resetSyncManagers env s).state = [] ∧
    isSyncInitialized (resetSyncManagers env s).state r = false :=
  ⟨rfl, rfl, rfl, rfl, rfl, rfl⟩

/-- Claim C2: on the non-local path a throwing `fetchWorkflowsFromDB` is
logged and swallowed: the call still sets `initialized = true` and returns
`true`, and `isSyncInitialized` afterwards equals the registry predicate's
current value alone, independent of the fetch error. -/
theorem fetch_error_swallowed (env : Env) (s : BootstrapState) (e : Nat) (r : Bool)
    (h1 : s.initialized = false) (h2 : s.initializing = false)
    (h3 : env.localStorageMode = .ok false) (h4 : env.resetRegistry = .ok ())
    (h5 : env.fetchWorkflows = .error e) :
    (initializeSyncManagers env s).ret = true ∧
    (initializeSyncManagers env s).state.initialized = true ∧
    LogLine.mk .error "Error fetching data from DB:" ∈
      (initializeSyncManagers env s).logs ∧
    isSyncInitialized (initializeSyncManagers env s).state r = r := by
  simp [initializeSyncManagers, initBody, innerFetchBlock, isSyncInitialized,
    h1, h2, h3, h4, h5]

/-- Environment whose DB fetch throws with code 7. -/
def envFetchErr : Env :=
  { localStorageMode := .ok false, resetRegistry := .ok (),
    fetchWorkflows := .error 7, registryCheck1 := .ok true, registryCheck2 := .ok true }

/-- Witness for claim C2 at the module-load state with a throwing fetch. -/
theorem fetch_error_swallowed_witness :
    (initialState.initialized = false ∧ initialState.initializing = false ∧
     envFetchErr.localStorageMode = .ok false ∧
     envFetchErr.resetRegistry = .ok () ∧
     envFetchErr.fetchWorkflows = .error 7) ∧
    ((initializeSyncManagers envFetchErr initialState).ret = true ∧
     (initializeSyncManagers envFetchErr initialState).state.initialized = true ∧
     LogLine.mk .error "Error fetching data from DB:" ∈
       (initializeSyncManagers envFetchErr initialState).logs ∧
     isSyncInitialized (initializeSyncManagers envFetchErr initialState).state false
       = false) :=
  ⟨⟨rfl, rfl, rfl, rfl, rfl⟩,
   fetch_error_swallowed envFetchErr initialState 7 false rfl rfl rfl rfl rfl⟩

/-- Claim C3 as amended: on the non-local path, after a successful fetch
the call checks `isRegistryInitialized()`, waits just once for 500 units
when that first check is false and not at all when it is true, and returns
`true` with the same final state either way (`registryCheck2` is left
unconstrained in the first part, so the returned value, state and waiting
time are independent of the second check, which only selects the final log
line); when the fetch throws and its error is swallowed, the registry
check and the delay are skipped entirely — only the fetch-error line is
logged, no wait occurs — and the call still returns `true`. -/
theorem registry_wait_logging (env : Env) (s : BootstrapState) (b : Bool) (e : Nat)
    (h1 : s.initialized = false) (h2 : s.initializing = false)
    (h3 : env.localStorageMode = .ok false) (h4 : env.resetRegistry = .ok ()) :
    (env.fetchWorkflows = .ok () → env.registryCheck1 = .ok b →
      (initializeSyncManagers env s).waitUnits = (if b then 0 else 500) ∧
      (initializeSyncManagers env s).ret = true ∧
      (initializeSyncManagers env s).state =
        { initialized := true, initializing := false,
          managers := [SyncManager.workflowSync] }) ∧
    (env.fetchWorkflows = .error e →
      (initializeSyncManagers env s).waitUnits = 0 ∧
      (initializeSyncManagers env s).ret = true ∧
      (initializeSyncManagers env s).logs =
        [⟨.error, "Error fetching data from DB:"⟩]) := by
  constructor
  · intro h5 h6
    cases b <;> cases hc : env.registryCheck2 <;>
      simp [initializeSyncManagers, initBody, innerFetchBlock,
        h1, h2, h3, h4, h5, h6, hc]
  · intro h5
    simp [initializeSyncManagers, initBody, innerFetchBlock,
      h1, h2, h3, h4, h5]

/-- Environment with a non-throwing fetch whose first registry check is
false and whose second is true. -/
def envSlowRegistry : Env :=
  { localStorageMode := .ok false, resetRegistry := .ok (),
    fetchWorkflows := .ok (), registryCheck1 := .ok false, registryCheck2 := .ok true }

/-- Witness for the amended claim C3: with a successful fetch, the first
check false forces one 500-unit wait and the call still returns `true`. -/
theorem registry_wait_logging_witness :
    (initialState.initialized = false ∧ initialState.initializing = false ∧
     envSlowRegistry.localStorageMode = .ok false ∧
     envSlowRegistry.resetRegistry = .ok ()) ∧
    ((envSlowRegistry.fetchWorkflows = .ok () →
      envSlowRegistry.registryCheck1 = .ok false →
      (initializeSyncManagers envSlowRegistry initialState).waitUnits = 500 ∧
      (initializeSyncManagers envSlowRegistry initialState).ret = true ∧
      (initializeSyncManagers envSlowRegistry initialState).state =
        { initialized := true, initializing := false,
          managers := [SyncManager.workflowSync] }) ∧
     (envSlowRegistry.fetchWorkflows = .error 0 →
      (initializeSyncManagers envSlowRegistry initialState).waitUnits = 0 ∧
      (initializeSyncManagers envSlowRegistry initialState).ret = true ∧
      (initializeSyncManagers envSlowRegistry initialState).logs =
        [⟨.error, "Error fetching data from DB:"⟩])) :=
  ⟨⟨rfl, rfl, rfl, rfl⟩,
   registry_wait_logging envSlowRegistry initialState false 0 rfl rfl rfl rfl⟩

/-- Environment whose fetch throws while the registry predicate would
report false: the input on which frozen claim C3 fails. -/
def envFetchSkip : Env :=
  { localStorageMode := .ok false, resetRegistry := .ok (),
    fetchWorkflows := .error 7, registryCheck1 := .ok false,
    registryCheck2 := .ok false }

/-- Counterexample to claim C3 as frozen: it asserts that after a swallowed
fetch failure the call still checks `isRegistryInitialized()` and, the
predicate being false, waits 500 units.  At this concrete input the fetch
throws and the registry value is false, yet the call waits 0 units (not
500) and logs only the fetch-error line — neither the waiting-info line
nor a verification line appears, so the checks were skipped. -/
theorem registry_wait_logging_counterexample :
    envFetchSkip.localStorageMode = .ok false ∧
    envFetchSkip.resetRegistry = .ok () ∧
    envFetchSkip.fetchWorkflows = .error 7 ∧
    envFetchSkip.registryCheck1 = .ok false ∧
    (initializeSyncManagers envFetchSkip initialState).ret = true ∧
    (initializeSyncManagers envFetchSkip initialState).waitUnits = 0 ∧
    (initializeSyncManagers envFetchSkip initialState).logs =
      [⟨.error, "Error fetching data from DB:"⟩] ∧
    ¬((initializeSyncManagers envFetchSkip initialState).waitUnits = 500) := by
  refine ⟨rfl, rfl, rfl, rfl, ?_, ?_, ?_, ?_⟩ <;>
    simp [initializeSyncManagers, initBody, innerFetchBlock, envFetchSkip,
      initialState]

/-- Claim C4: the outer catch/finally of `initializeSyncManagers`.  A
guard-passing call always completes with `initializing = false`; the model
returns a plain boolean (no error channel), reflecting that no exception
escapes to the caller; and whenever the body throws past the
swallowed-fetch boundary the call logs the outer error line and returns
`false`. -/
theorem outer_catch_no_throw (env : Env) (s : BootstrapState) (e : Nat)
    (h1 : s.initialized = false) (h2 : s.initializing = false) :
    (initializeSyncManagers env s).state.initializing = false ∧
    ((initBody env { s with initializing := true }).outcome = .error e →
      (initializeSyncManagers env s).ret = false ∧
      LogLine.mk .error "Error initializing sync managers:" ∈
        (initializeSyncManagers env s).logs) := by
  refine ⟨initializing_cleared env s h2, ?_⟩
  intro hb
  rw [h1] at hb
  simp [initializeSyncManagers, h1, h2, hb]

/-- Environment whose `isLocalStorageMode()` call itself throws with code 3. -/
def envLocalErr : Env :=
  { localStorageMode := .error 3, resetRegistry := .ok (),
    fetchWorkflows := .ok (), registryCheck1 := .ok true, registryCheck2 := .ok true }

/-- Witness for claim C4: a throwing `isLocalStorageMode` reaches the outer
catch, which logs and returns `false`, with the guard cleared. -/
theorem outer_catch_no_throw_witness :
    (initialState.initialized = false ∧ initialState.initializing = false) ∧
    ((initializeSyncManagers envLocalErr initialState).state.initializing = false ∧
     ((initBody envLocalErr { initialState with initializing := true }).outcome
        = .error 3 →
      (initializeSyncManagers envLocalErr initialState).ret = false ∧
      LogLine.mk .error "Error initializing sync managers:" ∈
        (initializeSyncManagers envLocalErr initialState).logs)) :=
  ⟨⟨rfl, rfl⟩, outer_catch_no_throw envLocalErr initialState 3 rfl rfl⟩

/-- Claim C8: invariants of the reachable bootstrap states.  Every state
reachable from the module-load state by completed calls is quiescent
(`initializing = false`, so `initialized` and `initializing` are never
both true); once `initialized` is true, further calls change nothing until
a reset (so `initialized` becomes true at most once per lifecycle); and at
the entry state of an in-flight call (`initializing` set, `initialized`
still false) a second call returns `false` and leaves the state alone. -/
theorem bootstrap_invariants (s : BootstrapState) (env : Env) (h : Reach s) :
    s.initializing = false ∧
    ¬(s.initialized = true ∧ s.initializing = true) ∧
    (s.initialized = true →
      initializeSyncManagers env s =
        { ret := true, state := s, localModeInvoked := false,
          resetRegistryInvoked := false, fetchInvoked := false,
          waitUnits := 0, logs := [] }) ∧
    (s.initialized = false →
      (initializeSyncManagers env { s with initializing := true }).ret = false ∧
      (initializeSyncManagers env { s with initializing := true }).state =
        { s with initializing := true }) := by
  have hq := reach_initializing_false h
  refine ⟨hq, ?_, ?_, ?_⟩
  · rintro ⟨-, h2⟩
    rw [hq] at h2
    exact Bool.false_ne_true h2
  · intro hI
    simp [initializeSyncManagers, hI]
  · intro hI
    constructor
    · simp [initializeSyncManagers, hI]
    · simp [initializeSyncManagers, hI]

/-- Witness for claim C8 at the module-load state, reached by zero steps. -/
theorem bootstrap_invariants_witness :
    Reach initialState ∧
    (initialState.initializing = false ∧
     ¬(initialState.initialized = true ∧ initialState.initializing = true) ∧
     (initialState.initialized = true →
       initializeSyncManagers envOk initialState =
         { ret := true, state := initialState, localModeInvoked := false,
           resetRegistryInvoked := false, fetchInvoked := false,
           waitUnits := 0, logs := [] }) ∧
     (initialState.initialized = false →
       (initializeSyncManagers envOk
          { initialState with initializing := true }).ret = false ∧
       (initializeSyncManagers envOk
          { initialState with initializing := true }).state =
         { initialState with initializing := true })) :=
  ⟨Reach.start, bootstrap_invariants initialState envOk Reach.start⟩

/-- Claim C9: no rollback on the outer failure path.  A guard-passing call
on the non-local path can only return `false` when
`resetRegistryInitialization` threw, and then the partial mutations stand:
`managers` is already the singleton `[workflowSync]` (so `getSyncManagers`
is non-empty), the reset collaborator was invoked, yet `initialized`
stays false. -/
theorem nonlocal_failure_no_rollback (env : Env) (s : BootstrapState)
    (h1 : s.initialized = false) (h2 : s.initializing = false)
    (h3 : env.localStorageMode = .ok false)
    (h4 : (initializeSyncManagers env s).ret = false) :
    (initializeSyncManagers env s).state.managers = [SyncManager.workflowSync] ∧
    getSyncManagers (initializeSyncManagers env s).state =
      [SyncManager.workflowSync] ∧
    (initializeSyncManagers env s).resetRegistryInvoked = true ∧
    (initializeSyncManagers env s).state.initialized = false := by
  cases hr : env.resetRegistry with
  | ok u =>
    exfalso
    simp [initializeSyncManagers, initBody, h1, h2, h3, hr] at h4
  | error e =>
    simp [initializeSyncManagers, initBody, getSyncManagers, h1, h2, h3, hr]

/-- Environment whose `resetRegistryInitialization()` call throws with code 5. -/
def envResetErr : Env :=
  { localStorageMode := .ok false, resetRegistry := .error 5,
    fetchWorkflows := .ok (), registryCheck1 := .ok true, registryCheck2 := .ok true }

/-- Witness for claim C9: a throwing registry reset makes the call return
`false` with `managers` already populated. -/
theorem nonlocal_failure_no_rollback_witness :
    (initialState.initialized = false ∧ initialState.initializing = false ∧
     envResetErr.localStorageMode = .ok false ∧
     (initializeSyncManagers envResetErr initialState).ret = false) ∧
    ((initializeSyncManagers envResetErr initialState).state.managers =
       [SyncManager.workflowSync] ∧
     getSyncManagers (initializeSyncManagers envResetErr initialState).state =
       [SyncManager.workflowSync] ∧
     (initializeSyncManagers envResetErr initialState).resetRegistryInvoked = true ∧
     (initializeSyncManagers envResetErr initialState).state.initialized = false) :=
  ⟨⟨rfl, rfl, rfl, rfl⟩,
   nonlocal_failure_no_rollback envResetErr initialState rfl rfl rfl rfl⟩

/-- Claim C10: the local-storage path never invokes
`resetRegistryInitialization` (nor the fetch), and conversely the reset
collaborator is invoked by a call only when `isLocalStorageMode()`
returned false. -/
theorem localMode_no_registry_reset (env : Env) (s : BootstrapState)
    (h1 : s.initialized = false) (h2 : s.initializing = false) :
    (env.localStorageMode = .ok true →
      (initializeSyncManagers env s).resetRegistryInvoked = false ∧
      (initializeSyncManagers env s).fetchInvoked = false) ∧
    ((initializeSyncManagers env s).resetRegistryInvoked = true →
      env.localStorageMode = .ok false) := by
  constructor
  · intro h3
    simp [initializeSyncManagers, initBody, h1, h2, h3]
  · intro hr
    cases hl : env.localStorageMode with
    | error e => simp [initializeSyncManagers, initBody, h1, h2, hl] at hr
    | ok b =>
      cases b with
      | true => simp [initializeSyncManagers, initBody, h1, h2, hl] at hr
      | false => rfl

/-- Witness for claim C10 at the module-load state under local-storage mode. -/
theorem localMode_no_registry_reset_witness :
    (initialState.initialized = false ∧ initialState.initializing = false) ∧
    ((envOk.localStorageMode = .ok true →
      (initializeSyncManagers envOk initialState).resetRegistryInvoked = false ∧
      (initializeSyncManagers envOk initialState).fetchInvoked = false) ∧
     ((initializeSyncManagers envOk initialState).resetRegistryInvoked = true →
      envOk.localStorageMode = .ok false)) :=
  ⟨⟨rfl, rfl⟩, localMode_no_registry_reset envOk initialState rfl rfl⟩

end SyncRegistry
